import Mathlib

/-!
Shallow embedding of the PANOPTES observatory state logic
(panoptes/state/logic.py): the safety supervisor, the state handlers, the
delayed dispatcher and the asynchronous wait engine, together with theorems
checking the specification claims against the embedded code.

Machine conventions: astropy quantities are modelled as rationals in fixed
base units (milliseconds, arcseconds, pixels); Python dicts with string keys
are association lists with insertion-order semantics; a Python exception
propagating out of a function is an `Except.error` result; effects on the
event loop and the mount are reified as a list of `Action` values.
-/

namespace PanStateLogic

/-- Default settle delay between state transitions, `state_delay` in
`__init__` (logic.py line 22). -/
def state_delay : ℚ := 1

/-- Default poll interval used by the wait loops, `sleep_delay` in
`__init__` (logic.py line 23). -/
def sleep_delay : ℚ := 7

/-- Python-level errors that the embedded code can raise. -/
inductive PyErr
  | exc            -- a generic exception raised by a collaborator call
  | unboundLocal   -- UnboundLocalError: local variable referenced before assignment
  | assertionError -- a failed assert statement
deriving DecidableEq, Repr

/-- Externally visible effects issued by the state logic. -/
inductive Action
  | callLater (delay : ℚ) (method : String)  -- self._loop.call_later(delay, method), from goto
  | callTransition (method : String)          -- a direct synchronous call of a transition method
  | scheduleWait (transition : String)        -- future + polling task + done-callback registered
  | serialQuery (cmd : String) (arg : ℚ)      -- self.observatory.mount.serial_query(cmd, arg)
deriving DecidableEq, Repr

/-! ## Safety supervisor -/

/-- Inputs consulted by one evaluation of the safety supervisor. -/
structure SafetyInputs where
  is_dark : Bool       -- self.is_dark()
  good_weather : Bool  -- self.weather_station.is_safe()
  weather_sim : Bool   -- whether 'weather' is in self.config['simulator']
  state : String       -- self.state, the current machine state
deriving DecidableEq, Repr

/-- States in which an unsafe evaluation does not trigger park
(logic.py line 110). -/
def no_park_states : List String := ["sleeping", "parked", "parking"]

/-- Embedding of `is_safe` (logic.py lines 75-113).  The first component is
the returned safety flag: the conjunction of darkness and weather, forced to
true under the weather simulator.  The second component records the side
effect: whether `self.park()` was triggered before returning. -/
def is_safe (inp : SafetyInputs) : Bool × Bool :=
  let safe := inp.is_dark && inp.good_weather
  let safe := if inp.weather_sim then true else safe
  (safe, if safe then false else !(decide (inp.state ∈ no_park_states)))

/-- Embedding of `check_safety` (logic.py lines 30-56).  `event_name` is
`event_data.event.name` when event data is present.  The result pairs the
returned flag with whether the underlying `is_safe` call triggered a park. -/
def check_safety (event_name : Option String) (inp : SafetyInputs) : Bool × Bool :=
  if event_name = some "park" then (true, false)
  else is_safe inp

/-! ## Delayed dispatcher and wait-completion callback -/

/-- Embedding of `goto` (logic.py lines 468-482): when the event loop is
running, schedule the named transition method on the loop after the settle
delay; otherwise do nothing. -/
def goto (loop_running : Bool) (method : String) : List Action :=
  if loop_running then [Action.callLater state_delay method] else []

/-- Embedding of the wait-completion callback `_goto_state`
(logic.py lines 595-611): when the future is not cancelled the transition
method is fetched with `getattr(self, state)` and called directly, in the
same tick; a cancelled future produces no call at all. -/
def goto_state (state : String) (cancelled : Bool) : List Action :=
  if cancelled then [] else [Action.callTransition state]

/-! ## Claim C1 -/

/-- C1: for every system state not in {sleeping, parked, parking}, an unsafe
evaluation of `is_safe` triggers a park transition before returning; in the
states sleeping, parked and parking an unsafe evaluation triggers no park. -/
theorem C1_is_safe_park (inp : SafetyInputs) :
    (inp.state ∉ no_park_states → (is_safe inp).1 = false → (is_safe inp).2 = true) ∧
    (inp.state ∈ no_park_states → (is_safe inp).2 = false) := by
  constructor
  · intro hst hsafe
    simp only [is_safe] at hsafe ⊢
    simp [hsafe, hst]
  · intro hst
    simp only [is_safe]
    split
    · rfl
    · simp [hst]

/-- Witness for C1 at concrete inputs: unsafe while observing triggers park,
unsafe while parking does not. -/
theorem C1_is_safe_park_witness :
    (is_safe ⟨false, true, false, "observing"⟩).2 = true ∧
    (is_safe ⟨false, true, false, "parking"⟩).2 = false :=
  ⟨(C1_is_safe_park ⟨false, true, false, "observing"⟩).1 (by decide) (by decide),
   (C1_is_safe_park ⟨false, true, false, "parking"⟩).2 (by decide)⟩

/-! ## Claim C2 -/

/-- C2: a park event makes `check_safety` return true with no `is_safe`
consultation (hence no park side effect), regardless of darkness, weather or
simulator configuration; every other event, or absent event data, returns
exactly the value of `is_safe`. -/
theorem C2_check_safety (inp : SafetyInputs) (ev : Option String) :
    check_safety (some "park") inp = (true, false) ∧
    (ev ≠ some "park" → check_safety ev inp = is_safe inp) := by
  refine ⟨rfl, fun hev => ?_⟩
  unfold check_safety
  simp [hev]

/-- Witness for C2 at a concrete input: dark and weather both bad, park event
still reports safe; no event data falls through to `is_safe`. -/
theorem C2_check_safety_witness :
    check_safety (some "park") ⟨false, false, false, "observing"⟩ = (true, false) ∧
    check_safety none ⟨false, false, false, "observing"⟩ =
      is_safe ⟨false, false, false, "observing"⟩ :=
  ⟨(C2_check_safety ⟨false, false, false, "observing"⟩ none).1,
   (C2_check_safety ⟨false, false, false, "observing"⟩ none).2 (by decide)⟩

/-! ## Claim C3 -/

/-- C3 as stated fails: on a completed, non-cancelled wait the callback
`_goto_state` does not dispatch through the Delayed Dispatcher `goto` (which
would schedule the transition after the settle delay); it calls the
transition method directly. -/
theorem C3_goto_state_counterexample :
    goto_state "schedule" false ≠ goto true "schedule" := by decide

/-- C3 amended: on a completed, non-cancelled wait the callback invokes the
target transition directly and synchronously, with no settle delay; a
cancelled future invokes no transition at all. -/
theorem C3_goto_state (s : String) :
    goto_state s false = [Action.callTransition s] ∧ goto_state s true = [] := by
  unfold goto_state
  exact ⟨rfl, rfl⟩

/-! ## Python dict model for offset_info -/

/-- Association-list model of a Python dict with string keys and rational
values, in insertion order. -/
abbrev Dict := List (String × ℚ)

/-- Assignment `d[k] = v` of a Python dict: replace the value of an existing
key in place, or append a new key at the end. -/
def dict_set : Dict → String → ℚ → Dict
  | [], k, v => [(k, v)]
  | (k0, v0) :: rest, k, v =>
      if k0 = k then (k0, v) :: rest else (k0, v0) :: dict_set rest k v

/-- Lookup `d.get(k, dflt)` of a Python dict. -/
def dict_get (d : Dict) (k : String) (dflt : ℚ) : ℚ :=
  match d.find? (fun p => p.1 == k) with
  | some p => p.2
  | none => dflt

/-- Presence test `k in d` of a Python dict. -/
def dict_has (d : Dict) (k : String) : Bool :=
  (d.find? (fun p => p.1 == k)).isSome

/-! ## Tracking handler -/

/-- Embedding of `on_enter_tracking` (logic.py lines 228-244).  The pending
offset is read from `offset_info` with default 0; only a strictly positive
value is applied: 250 ms is added, the mount is commanded east, and
`offset_info` is reset to the empty dict before the observe transition is
dispatched through `goto`.  The result is the updated `offset_info` together
with the issued actions in order. -/
def on_enter_tracking (loop_running : Bool) (offset_info : Dict) :
    Dict × List Action :=
  let ms_offset := dict_get offset_info "ms_offset" 0
  if ms_offset > 0 then
    let ms_offset := ms_offset + 250
    ([], Action.serialQuery "move_ms_east" ms_offset :: goto loop_running "observe")
  else
    (offset_info, goto loop_running "observe")

/-! ## Analyzing offset computation -/

/-- Sidereal rate used by the analyzing handler, expressed in milliseconds
per arcsecond: `(24 hour → minute) / (360 deg → arcsec)` (logic.py line 342)
with the later `.to(u.ms)` conversions folded in (lines 363 and 374). -/
def sidereal_rate_ms : ℚ := (24 * 60 * 60000) / (360 * 3600)

/-- Embedding of the correlation branch of `on_enter_analyzing`
(logic.py lines 323-375): the `offset_info` dict writes in source order,
with the pixel deltas `delta_ra` and `delta_dec` as returned by
`images.get_ra_dec_deltas` and both millisecond offsets stored under the
single key `ms_offset` (lines 364 and 375). -/
def correlation_offset_info (pixel_scale delta_ra delta_dec rate : ℚ) : Dict :=
  let offset_info : Dict := []
  let offset_info := dict_set offset_info "delta_ra" delta_ra
  let offset_info := dict_set offset_info "delta_dec" delta_dec
  let delta_ra_as := pixel_scale * delta_ra
  let offset_info := dict_set offset_info "delta_ra_as" delta_ra_as
  let ms_offset := delta_ra_as * rate
  let offset_info := dict_set offset_info "ms_offset" ms_offset
  let delta_dec_as := pixel_scale * delta_dec
  let offset_info := dict_set offset_info "delta_dec_as" delta_dec_as
  let ms_offset := delta_dec_as * rate
  let offset_info := dict_set offset_info "ms_offset" ms_offset
  offset_info

/-! ## Claim C9 -/

/-- C9 as stated fails: with `ms_offset` present but negative the tracking
handler applies no correction and does not reset `offset_info`, although it
still dispatches observe. -/
theorem C9_tracking_counterexample :
    dict_has [("ms_offset", -5)] "ms_offset" = true ∧
    on_enter_tracking true [("ms_offset", -5)] =
      ([("ms_offset", -5)], [Action.callLater state_delay "observe"]) := by
  constructor
  · rfl
  · rfl

/-- C9 amended: a correction is applied (with 250 ms added, direction east)
and `offset_info` is cleared, before the transition is issued, exactly when
the pending `ms_offset` is strictly positive; a present but non-positive
`ms_offset` is ignored and `offset_info` is left unchanged; in every case the
next transition dispatched is observe. -/
theorem C9_tracking (d : Dict) :
    (0 < dict_get d "ms_offset" 0 →
      on_enter_tracking true d =
        ([], [Action.serialQuery "move_ms_east" (dict_get d "ms_offset" 0 + 250),
              Action.callLater state_delay "observe"])) ∧
    (¬ 0 < dict_get d "ms_offset" 0 →
      on_enter_tracking true d = (d, [Action.callLater state_delay "observe"])) := by
  constructor
  · intro h
    simp [on_enter_tracking, goto, h]
  · intro h
    simp [on_enter_tracking, goto, h]

/-- Witness for C9 at concrete inputs: a positive pending offset is applied
and cleared, an absent offset leaves the dict untouched. -/
theorem C9_tracking_witness :
    ((0 : ℚ) < dict_get [("ms_offset", 5)] "ms_offset" 0 ∧
      on_enter_tracking true [("ms_offset", 5)] =
        ([], [Action.serialQuery "move_ms_east"
                (dict_get [("ms_offset", 5)] "ms_offset" 0 + 250),
              Action.callLater state_delay "observe"])) ∧
    on_enter_tracking true [] = ([], [Action.callLater state_delay "observe"]) :=
  ⟨⟨by decide, (C9_tracking [("ms_offset", 5)]).1 (by decide)⟩,
   (C9_tracking []).2 (by decide)⟩

/-! ## Claim C7 -/

/-- C7 as stated fails: the recorded `ms_offset` is not consistent with the
RA path, because the Dec-based value overwrites it under the same key. -/
theorem C7_offset_counterexample :
    dict_get (correlation_offset_info 1 1 2 sidereal_rate_ms) "ms_offset" 0 ≠
      dict_get (correlation_offset_info 1 1 2 sidereal_rate_ms) "delta_ra_as" 0 *
        sidereal_rate_ms := by
  simp [correlation_offset_info, dict_set, dict_get, sidereal_rate_ms, List.find?]

/-- C7 amended: for every pixel shift, pixel scale and sidereal rate the
analyzing computation satisfies `delta_as = pixel_scale * delta` on both
axes, and each millisecond offset equals `delta_as * rate`; but both are
written under the single key `ms_offset`, so the Dec-based value overwrites
the RA-based one and only the Dec-based millisecond offset is recorded. -/
theorem C7_offset_formulas (scale dra ddec rate : ℚ) :
    correlation_offset_info scale dra ddec rate =
      [("delta_ra", dra), ("delta_dec", ddec), ("delta_ra_as", scale * dra),
       ("ms_offset", scale * ddec * rate), ("delta_dec_as", scale * ddec)] := by
  simp [correlation_offset_info, dict_set]

/-! ## Scheduling handler -/

/-- A scheduler target; the handler only consults its identity through the
collaborator predicates. -/
structure Target where
  name : String
deriving DecidableEq, Repr

/-- Embedding of `on_enter_scheduling` (logic.py lines 167-207).  The
collaborators are passed as parameters: `get_target` is the outcome of
`self.observatory.get_target()` (an exception, no target, or a target),
`target_is_up` is `self.observatory.scheduler.target_is_up(Time.now(), ·)`
and `set_target_coordinates` is
`self.observatory.mount.set_target_coordinates(·)`.  The `try`/`except`
around `get_target` catches a raised exception and only logs it, leaving the
local variable `target` unassigned, so the subsequent test
`if target is not None` raises UnboundLocalError; a propagated exception is
the `.error` result.  On the normal path the handler ends by dispatching the
chosen next state through `goto`. -/
def on_enter_scheduling (loop_running : Bool)
    (get_target : Except PyErr (Option Target))
    (target_is_up : Target → Bool) (set_target_coordinates : Target → Bool) :
    Except PyErr (List Action) :=
  match get_target with
  | .error _ => .error .unboundLocal
  | .ok target =>
      let next_state := "park"
      match target with
      | some t =>
          if target_is_up t then
            if set_target_coordinates t then .ok (goto loop_running "slew_to_target")
            else .ok (goto loop_running next_state)
          else .ok (goto loop_running next_state)
      | none => .ok (goto loop_running next_state)

/-! ## Claim C6 -/

/-- C6: the scheduling handler dispatches park when the scheduler returns no
target, when the target is not up, or when the mount rejects the
coordinates; it dispatches the slew transition exactly when the target is up
and the mount accepts the coordinates. -/
theorem C6_scheduling_next_state (up accept : Target → Bool) (t : Target) :
    on_enter_scheduling true (.ok none) up accept = .ok (goto true "park") ∧
    on_enter_scheduling true (.ok (some t)) up accept =
      .ok (goto true (if up t then
        if accept t then "slew_to_target" else "park" else "park")) := by
  constructor
  · rfl
  · by_cases hup : up t <;> by_cases hacc : accept t <;>
      simp [on_enter_scheduling, hup, hacc]

/-! ## Claim C4 -/

/-- C4 is refuted by the code: when `observatory.get_target()` raises, the
scheduling handler catches the exception but then reads the unassigned local
`target`, so an UnboundLocalError propagates out of the handler instead of a
safe next-state decision. -/
theorem C4_scheduling_propagates :
    on_enter_scheduling true (.error .exc) (fun _ => true) (fun _ => true) =
      .error .unboundLocal := rfl

/-! ## Analyzing handler -/

/-- Outcome of the plate-solve fallback `images.solve_offset`
(logic.py lines 381-386): a solved offset dict, an AssertionError caught at
line 385, or any other exception, which escapes to the outer handler. -/
inductive SolveResult
  | ok (info : Dict)
  | assertFail
  | raised
deriving DecidableEq, Repr

/-- Embedding of `on_enter_analyzing` (logic.py lines 267-407) at the level
of the offset and completion logic.  Metadata building and raw-image
processing are elided (failures there are caught at lines 311-312 and do not
affect the claims).  When a reference image exists, `offset_info` starts as
the empty dict (line 323); the correlation path fills it via
`correlation_offset_info`; on correlation failure the plate-solve fallback
is used, where an AssertionError leaves the empty dict in place and any
other exception jumps to the outer handler, skipping the write at line 389.
The stored dict replaces `observatory.offset_info` (`prev_offset` when the
write is skipped or no reference image exists).  The handler ends by
dispatching the completion transition: `adjust_tracking` when the
observation is incomplete, `schedule` when complete (lines 400-407). -/
def on_enter_analyzing (loop_running : Bool) (complete : Bool)
    (reference_exists : Bool) (correlation : Except PyErr (ℚ × ℚ))
    (pixel_scale rate : ℚ) (solve : SolveResult) (prev_offset : Dict) :
    Dict × List Action :=
  let stored : Option Dict :=
    if reference_exists then
      match correlation with
      | .ok (delta_ra, delta_dec) =>
          some (correlation_offset_info pixel_scale delta_ra delta_dec rate)
      | .error _ =>
          match solve with
          | .ok info => some info
          | .assertFail => some []
          | .raised => none
    else none
  let offset_info := match stored with
    | some d => d
    | none => prev_offset
  let next_state := if !complete then "adjust_tracking" else "schedule"
  (offset_info, goto loop_running next_state)

/-! ## Claim C8 -/

/-- C8 as stated fails: with a reference image present but both the
correlation and the plate solve failing, the analyzing handler writes an
empty `offset_info`, replacing the previous one. -/
theorem C8_analyzing_counterexample :
    (on_enter_analyzing true true true (.error .exc) 1 sidereal_rate_ms
      .assertFail [("ms_offset", 5)]).1 = [] := rfl

/-- C8 amended: the analyzing handler dispatches schedule when the
observation is complete and adjust_tracking when it is not; and when a
reference image exists and the correlation succeeds, the `offset_info` it
writes is non-empty. -/
theorem C8_analyzing (loop_running complete ref : Bool)
    (corr : Except PyErr (ℚ × ℚ)) (scale rate : ℚ) (solve : SolveResult)
    (prev : Dict) (dra ddec : ℚ) :
    (on_enter_analyzing loop_running complete ref corr scale rate solve prev).2 =
      goto loop_running (if complete then "schedule" else "adjust_tracking") ∧
    (on_enter_analyzing loop_running complete true (.ok (dra, ddec))
        scale rate solve prev).1 ≠ [] := by
  constructor
  · cases complete <;> rfl
  · simp [on_enter_analyzing, correlation_offset_info, dict_set]

/-! ## Async wait engine -/

/-- Fate of a polling coroutine: the future was set with a result, the loop
is still pending when the observation window (fuel) ends, or the coroutine
raised before setting the future. -/
inductive WaitOutcome
  | done (result : List String)
  | pending
  | raised (e : PyErr)
deriving DecidableEq, Repr

/-- Polling loop body of `_file_exists` (logic.py lines 570-577): at each
tick check every filename, finish when all exist, otherwise sleep and poll
again.  `fuel` bounds the number of sleep iterations of the unbounded source
loop; the second component counts the filesystem polls performed. -/
def file_exists_go (exists_at : ℕ → String → Bool) (filenames : List String) :
    ℕ → ℕ → ℕ → WaitOutcome × ℕ
  | 0, t, polls =>
      if filenames.all (exists_at t) then (.done filenames, polls + 1)
      else (.pending, polls + 1)
  | fuel + 1, t, polls =>
      if filenames.all (exists_at t) then (.done filenames, polls + 1)
      else file_exists_go exists_at filenames fuel (t + 1) (polls + 1)

/-- Embedding of the `_file_exists` coroutine (logic.py lines 554-581).  The
`assert filenames` at line 564 fires before any filesystem poll when the
filename list is empty, so the coroutine raises AssertionError with zero
polls performed and never sets the future. -/
def file_exists (exists_at : ℕ → String → Bool) (filenames : List String)
    (fuel : ℕ) : WaitOutcome × ℕ :=
  if filenames.isEmpty then (.raised .assertionError, 0)
  else file_exists_go exists_at filenames fuel 0 0

/-- Embedding of `wait_until` (logic.py lines 484-494): when the event loop
is running, create a future, schedule the polling task and register the
completion callback; otherwise do nothing. -/
def wait_until (loop_running : Bool) (transition : String) : List Action :=
  if loop_running then [Action.scheduleWait transition] else []

/-- Embedding of `wait_until_mount` (logic.py lines 496-502): guard on the
running loop, then delegate to `wait_until` with the position poller. -/
def wait_until_mount (loop_running : Bool) (position transition : String) :
    List Action :=
  if loop_running then wait_until loop_running transition else []

/-- Embedding of `wait_until_safe` (logic.py lines 516-525): guard on the
running loop, then wait on the safety poller and transition to get_ready. -/
def wait_until_safe (loop_running : Bool) : List Action :=
  if loop_running then wait_until loop_running "get_ready" else []

/-- Embedding of `wait_until_files_exist` (logic.py lines 504-514) composed
with the eventual fate of the registered wait: the done-callback
`_goto_state` runs only once the coroutine sets the future, so a raising or
still-pending coroutine dispatches nothing.  The result pairs the dispatched
actions with the number of filesystem polls performed. -/
def wait_until_files_exist (loop_running : Bool)
    (exists_at : ℕ → String → Bool) (filenames : List String)
    (transition : String) (fuel : ℕ) : List Action × ℕ :=
  if loop_running then
    match file_exists exists_at filenames fuel with
    | (.done _, polls) => (goto_state transition false, polls)
    | (_, polls) => ([], polls)
  else ([], 0)

/-! ## Claim C5 -/

/-- C5: with an empty path list the wait coroutine raises before its first
poll, and the composed wait performs no polling iteration and dispatches no
transition, whatever the loop state, the filesystem and the horizon. -/
theorem C5_empty_files (loop_running : Bool) (exists_at : ℕ → String → Bool)
    (transition : String) (fuel : ℕ) :
    file_exists exists_at [] fuel = (.raised .assertionError, 0) ∧
    wait_until_files_exist loop_running exists_at [] transition fuel = ([], 0) := by
  refine ⟨rfl, ?_⟩
  cases loop_running <;> rfl

/-! ## Claim C10 -/

/-- C10: with the event loop not running, `goto`, `wait_until`,
`wait_until_mount`, `wait_until_files_exist` and `wait_until_safe` each
return without scheduling any callback or dispatching any transition. -/
theorem C10_loop_not_running (method transition position : String)
    (exists_at : ℕ → String → Bool) (filenames : List String) (fuel : ℕ) :
    goto false method = [] ∧
    wait_until false transition = [] ∧
    wait_until_mount false position transition = [] ∧
    wait_until_files_exist false exists_at filenames transition fuel = ([], 0) ∧
    wait_until_safe false = [] :=
  ⟨rfl, rfl, rfl, rfl, rfl⟩

end PanStateLogic
